import Mathlib

/-!
Verification of the edit-lease lifecycle manager, dispatcher, session
manager and wire-encoding corrector of the `testtrackpro` client
(`testtrackpro.py`), as a shallow embedding.

Exceptions are modelled by their object identity, a `Nat`: Python's
`is` test on two exception values is equality of these identities, and
`None is None` is `none = none`.  The outcome of each remote RPC is an
environment parameter `Option Nat`: `none` means the call returned
normally, `some e` means it raised the exception with identity `e`.
Each modelled operation also reports how many remote RPCs it issued.
-/

namespace TTPro

/-- Python truthiness of an optional string (`None` and `""` are falsy). -/
def truthyS : Option String → Bool
  | none => false
  | some s => !(s == "")

/-- Python truthiness of an optional integer cookie (`None` and `0` are falsy). -/
def truthyN : Option Nat → Bool
  | none => false
  | some n => !(n == 0)

/-- The mutable state of a `_TTPEditContext` (fields set in `__init__`,
lines 840-878, and mutated by `save`, `cancelSave` and `__exit__`).
`recordid` is the identity field of the held entity (`None` on the
freshly constructed placeholder entity of a denied context). -/
structure EditCtx where
  locked : Bool
  errored : Bool
  success : Bool
  saved : Bool
  lock_failed : Bool
  ignore_lock_error : Bool
  lock_error : Option Nat
  table : String
  recordid : Option Int
deriving Repr, DecidableEq

/-- Python slice `s[:k]` over the character sequence. -/
def pyTake (s : String) (k : Nat) : String := String.mk (s.toList.take k)

/-- Python slice `s[k:]` over the character sequence. -/
def pyDrop (s : String) (k : Nat) : String := String.mk (s.toList.drop k)

/-- Python `s.endswith(t)` over the character sequence. -/
def pyEndsWith (s t : String) : Bool :=
  s.toList.drop (s.toList.length - t.toList.length) == t.toList

/-- Name derivation of `__init__` (lines 849-855): the pair
`(editbyid_name, edit_name)` computed from the edit method name. -/
def editNames (method_name : String) : String × String :=
  if pyEndsWith method_name "ByRecordID" then
    (method_name, pyTake method_name (method_name.toList.length - 10))
  else
    (method_name ++ "ByRecordID", method_name)

/-- The entity table name: the edit name with the `edit` prefix stripped
(line 855 of `__init__`). -/
def tableOf (method_name : String) : String :=
  pyDrop (editNames method_name).2 4

/-- Result of the underlying lease-acquire RPC as `__init__` observes it:
success carrying the entity's record id, or a `TTPAPIError` with identity
`id` and fault detail `detail` (`none` when the error has no fault). -/
inductive Acquire where
  | ok (recordid : Option Int)
  | fault (id : Nat) (detail : Option String)
deriving Repr, DecidableEq

/-- Model of `_TTPEditContext.__init__` (lines 840-878): sets the flags, performs
the acquire RPC; on success the context is held; on a fault with detail
`"22"` while `ignoreEditLockError` is set the context is constructed
denied, with a freshly created empty entity (its `recordid` is `None`)
and the captured error retained; otherwise the error is re-raised. -/
def ctxInit (method_name : String) (ignoreEditLockError : Bool) (acq : Acquire) :
    Except Nat EditCtx :=
  let table := tableOf method_name
  match acq with
  | .ok rid =>
      .ok { locked := true, errored := false, success := false, saved := false,
            lock_failed := false, ignore_lock_error := ignoreEditLockError,
            lock_error := none, table := table, recordid := rid }
  | .fault i detail =>
      if ignoreEditLockError && detail == some "22" then
        .ok { locked := false, errored := false, success := false, saved := false,
              lock_failed := true, ignore_lock_error := ignoreEditLockError,
              lock_error := some i, table := table, recordid := none }
      else
        .error i

/-- Outcome of one call to `save` or `cancelSave`: the updated context,
the exception it raised (if any), and the number of remote RPCs issued. -/
structure OpResult where
  ctx : EditCtx
  raised : Option Nat
  rpc : Nat
deriving Repr, DecidableEq

/-- Model of `_TTPEditContext.save` (lines 970-980): a no-op when the lock is not
held; otherwise issues the save RPC and, when it returns, clears the
lock and records success. A raising RPC leaves every flag unchanged. -/
def ctxSave (c : EditCtx) (rpcRes : Option Nat) : OpResult :=
  if !c.locked then
    { ctx := c, raised := none, rpc := 0 }
  else
    match rpcRes with
    | some e => { ctx := c, raised := some e, rpc := 1 }
    | none =>
        { ctx := { c with locked := false, success := true, saved := true },
          raised := none, rpc := 1 }

/-- Model of `_TTPEditContext.cancelSave` (lines 982-992): a no-op when the lock
is not held; otherwise issues the cancel RPC and, when it returns,
clears the lock, with `saved` set to false. -/
def ctxCancelSave (c : EditCtx) (rpcRes : Option Nat) : OpResult :=
  if !c.locked then
    { ctx := c, raised := none, rpc := 0 }
  else
    match rpcRes with
    | some e => { ctx := c, raised := some e, rpc := 1 }
    | none =>
        { ctx := { c with locked := false, success := true, saved := false },
          raised := none, rpc := 1 }

/-- Outcome of `__exit__`: final context, whether the active exception is
suppressed (`__exit__` returned `True`), the exception `__exit__` itself
raised, and the counts of save and cancel RPCs it issued. -/
structure ExitResult where
  ctx : EditCtx
  suppress : Bool
  raised : Option Nat
  saveRpcs : Nat
  cancelRpcs : Nat
deriving Repr, DecidableEq

/-- Model of `_TTPEditContext.__exit__` (lines 886-924). `exc` is the identity of
the active exception (`none` when the scope exits normally); `saveRpc`
and `cancelRpc` are the environment's outcomes for the save and cancel
RPCs, should they be issued. Exceptions of the best-effort release
attempts are logged, not raised; only a failed save is re-raised. -/
def ctxExit (c : EditCtx) (exc : Option Nat) (saveRpc cancelRpc : Option Nat) :
    ExitResult :=
  let c := if exc.isSome then { c with errored := true } else c
  if !c.locked then
    if c.ignore_lock_error && exc == c.lock_error then
      { ctx := c, suppress := true, raised := none, saveRpcs := 0, cancelRpcs := 0 }
    else
      { ctx := c, suppress := false, raised := none, saveRpcs := 0, cancelRpcs := 0 }
  else
    match exc with
    | some _ =>
        let r := ctxCancelSave c cancelRpc
        { ctx := { r.ctx with success := false }, suppress := false,
          raised := none, saveRpcs := 0, cancelRpcs := r.rpc }
    | none =>
        let r := ctxSave c saveRpc
        match r.raised with
        | none =>
            { ctx := r.ctx, suppress := false, raised := none,
              saveRpcs := r.rpc, cancelRpcs := 0 }
        | some e =>
            let c2 := { r.ctx with errored := true }
            let r2 := ctxCancelSave c2 cancelRpc
            { ctx := r2.ctx, suppress := false, raised := some e,
              saveRpcs := r.rpc, cancelRpcs := r2.rpc }

/-- Spec reading of "committed" over the code's flags: the entity was
saved (`was_saved`, line 794). -/
def committed (c : EditCtx) : Bool := c.saved

/-- Spec reading of "lease denied" over the code's flags: lock
acquisition failed (`edit_lock_failed`, line 706). -/
def lease_denied (c : EditCtx) : Bool := c.lock_failed

/-- Spec reading of "still held" over the code's flags: the edit lock is
still held (`have_edit_lock`, line 752). -/
def still_held (c : EditCtx) : Bool := c.locked

/-- Spec reading of "discarded" over the code's flags: released without
saving, and not a denied construction. -/
def discarded (c : EditCtx) : Bool := !c.locked && !c.saved && !c.lock_failed

/-- Spec reading of a "terminated" context: committed, discarded, or
constructed denied. -/
def terminated (c : EditCtx) : Bool :=
  committed c || discarded c || lease_denied c

/-- Flag invariant of every reachable context: a saved context is
unlocked and was not a denied construction, and a denied construction is
unlocked and unsaved. -/
def Inv (c : EditCtx) : Prop :=
  (c.saved = true → c.locked = false ∧ c.lock_failed = false) ∧
  (c.lock_failed = true → c.locked = false ∧ c.saved = false)

instance (c : EditCtx) : Decidable (Inv c) := by
  unfold Inv; infer_instance

/-- Error raised out of `TTP._call_context_method`: the local
`TTPAPIError("Wrong type. ...")` of the table check, or an error of the
remote call itself. -/
inductive CallErr where
  | wrongTable
  | rpc (id : Nat)
deriving Repr, DecidableEq

/-- Outcome of `TTP._call_context_method`. -/
structure CallCtxResult where
  ctx : EditCtx
  raised : Option CallErr
  rpc : Nat
deriving Repr, DecidableEq

/-- Model of `TTP._call_context_method` (lines 339-351) invoked on an entity that
carries an edit context `c`: the context's table is checked against the
table named by the operation, the remote call is then issued
unconditionally, and only after it returns is the context's lock flag
cleared. -/
def call_context_method (table : String) (c : EditCtx) (rpcRes : Option Nat) :
    CallCtxResult :=
  if c.table ≠ table then
    { ctx := c, raised := some .wrongTable, rpc := 0 }
  else
    match rpcRes with
    | some e => { ctx := c, raised := some (.rpc e), rpc := 1 }
    | none => { ctx := { c with locked := false }, raised := none, rpc := 1 }

/-- A schema type descriptor, identified by its resolved name. -/
structure TypeRef where
  name : String
deriving Repr, DecidableEq

/-- An element of an outbound array value as `_polymprphic_cast` sees it:
a nested list/tuple, a suds `Object` with a class name and current
`sxtype` metadata, a plain mapping literal (`dict`), or any other plain
value. -/
inductive ArrElem where
  | lst
  | obj (clsName : String) (sxtype : Option TypeRef)
  | dict
  | prim
deriving Repr, DecidableEq

/-- An element of the rebuilt `array.item` list: lists pass through
unchanged, objects keep their class and get a (possibly absent) type
tag, mapping literals are promoted via `Factory.object`, other values
are wrapped via `Factory.property`. -/
inductive CastElem where
  | lst
  | obj (clsName : String) (sxtype : Option TypeRef)
  | promoted (clsName : String) (sxtype : Option TypeRef)
  | prop (clsName : String) (sxtype : Option TypeRef)
deriving Repr, DecidableEq

/-- Error propagating out of `_polymprphic_cast`: the
`raise TypeNotFound(qref)` line (1016) names the undefined variable
`qref`, so what actually escapes when the declared element type is not
found in the schema is a `NameError`. -/
inductive CastErr where
  | nameErrorQref
deriving Repr, DecidableEq

/-- Model of `_polymprphic_cast` (lines 994-1047). `schema` is the type query
`TypeQuery(name, ns).execute(self.schema)`; `aty` is `content.aty[1]`,
the pair (declared element type name, namespace). The declared element
type is resolved once; each suds object element whose class name differs
from the resolved name is re-tagged with the query result for its own
class (which is `none` when that class is not in the schema — no check
is made); mapping literals and plain values are promoted and tagged with
the declared resolved type. -/
def polymorphic_cast (schema : String × String → Option TypeRef)
    (aty : String × String) (value : List ArrElem) :
    Except CastErr (List CastElem) :=
  match schema aty with
  | none => .error .nameErrorQref
  | some ref =>
      .ok (value.map fun x =>
        match x with
        | .lst => .lst
        | .obj cls _ =>
            if ref.name == cls then .obj cls (some ref)
            else .obj cls (schema (cls, aty.2))
        | .dict => .promoted ref.name (some ref)
        | .prim => .prop ref.name (some ref))

/-- Outcome of `TTP.DatabaseLogoff`: the stored cookie afterwards, the
message of the `TTPLogonError` it raised (if any), and the number of
remote logoff RPCs issued. -/
structure LogoffResult where
  cookie : Option Nat
  raised : Option String
  rpc : Nat
deriving Repr, DecidableEq

/-- The server message that is always treated as success (line 685). -/
def sessionDroppedMsg : String := "Server raised fault: \x27Session Dropped.\x27"

/-- Model of `TTP.DatabaseLogoff` (lines 665-691): a no-op when no cookie (or no
client) is held; otherwise the remote logoff is invoked and the cookie
is cleared whatever happens. `rpc = none` models a normal return,
`rpc = some msg` an exception whose `str()` is `msg`: the session-dropped
message is treated as success, any other message raises `TTPLogonError`
unless `ignore_exceptions` is set, in which case it is only logged. -/
def DatabaseLogoff (cookie : Option Nat) (hasClient : Bool)
    (ignore_exceptions : Bool) (rpc : Option String) : LogoffResult :=
  if !truthyN cookie || !hasClient then
    { cookie := cookie, raised := none, rpc := 0 }
  else
    match rpc with
    | none => { cookie := none, raised := none, rpc := 1 }
    | some msg =>
        if msg == sessionDroppedMsg then
          { cookie := none, raised := none, rpc := 1 }
        else if !ignore_exceptions then
          { cookie := none, raised := some msg, rpc := 1 }
        else
          { cookie := none, raised := none, rpc := 1 }

/-- The credential fields of a `TTP` client. -/
structure TTPCreds where
  database_name : Option String
  username : Option String
  password : Option String
deriving Repr, DecidableEq

/-- The credential update performed by `TTP.DatabaseLogon` before the
remote call (lines 648-653). Note line 652-653 of the source:
`if password: self._password = username` — the username argument, not
the password, is stored as the password. -/
def databaseLogonCreds (s : TTPCreds) (db u p : Option String) : TTPCreds :=
  let s1 := if truthyS db then { s with database_name := db } else s
  let s2 := if truthyS u then { s1 with username := u } else s1
  if truthyS p then { s2 with password := u } else s2

/-- The credential update performed by `TTP.ProjectLogon` before the
remote call (lines 605-611), where the database name comes from
`CProject.database.name`. It shares the `self._password = username`
slip of line 611. -/
def projectLogonCreds (s : TTPCreds) (projectDbName : Option String)
    (u p : Option String) : TTPCreds :=
  let s1 := if truthyS projectDbName then { s with database_name := projectDbName } else s
  let s2 := if truthyS u then { s1 with username := u } else s1
  if truthyS p then { s2 with password := u } else s2

/-- The positional arguments handed to the remote `DatabaseLogon` call
(line 658): the stored database name, username and password. -/
structure LogonArgs where
  db : String
  user : String
  pw : String
deriving Repr, DecidableEq

/-- Model of `TTP.DatabaseLogon` (lines 623-663): logoff first when a cookie is
held (its `TTPLogonError`, if raised, aborts the call), update the
stored credentials, raise `TTPAPIError` when any of the three is still
falsy, then invoke the remote logon with the stored values.  `logoffRpc`
and `logonRpc` are the environment outcomes of the two remote calls; an
error result carries the message of the raised exception. -/
def DatabaseLogon (cookie : Option Nat) (hasClient : Bool) (s : TTPCreds)
    (db u p : Option String) (logoffRpc : Option String)
    (logonRpc : Except String Nat) :
    Except String (Option Nat × TTPCreds × LogonArgs) :=
  let lr := if truthyN cookie then DatabaseLogoff cookie hasClient false logoffRpc
            else { cookie := cookie, raised := none, rpc := 0 }
  match lr.raised with
  | some m => .error m
  | none =>
      let s2 := databaseLogonCreds s db u p
      if !truthyS s2.database_name || !truthyS s2.username || !truthyS s2.password then
        .error "Must supply a valid database_name, username, and password."
      else
        match logonRpc with
        | .error m => .error m
        | .ok ck =>
            .ok (some ck, s2,
              { db := s2.database_name.getD "", user := s2.username.getD "",
                pw := s2.password.getD "" })

/-- The positional arguments handed to the remote `ProjectLogon` call
(lines 616-617): the `CProject` value (kept abstract here), the stored
username and the stored password. -/
structure ProjectLogonArgs where
  user : String
  pw : String
deriving Repr, DecidableEq

/-- Model of `TTP.ProjectLogon` (lines 574-621): logoff first when a cookie is
held, take the database name from the supplied project, update the
stored credentials (with the line-611 slip), validate, then invoke the
remote logon with the stored username and password. -/
def ProjectLogon (cookie : Option Nat) (hasClient : Bool) (s : TTPCreds)
    (projectDbName : Option String) (u p : Option String)
    (logoffRpc : Option String) (logonRpc : Except String Nat) :
    Except String (Option Nat × TTPCreds × ProjectLogonArgs) :=
  let lr := if truthyN cookie then DatabaseLogoff cookie hasClient false logoffRpc
            else { cookie := cookie, raised := none, rpc := 0 }
  match lr.raised with
  | some m => .error m
  | none =>
      let s2 := projectLogonCreds s projectDbName u p
      if !truthyS s2.database_name || !truthyS s2.username || !truthyS s2.password then
        .error "Must supply a valid CProject, username, and password."
      else
        match logonRpc with
        | .error m => .error m
        | .ok ck =>
            .ok (some ck, s2,
              { user := s2.username.getD "", pw := s2.password.getD "" })

/-- A concrete schema with the abstract base type `CEntity` and one
concrete subtype `CDefect`, and nothing else, used to instantiate
theorems. -/
def sampleSchema : String × String → Option TypeRef :=
  fun p =>
    if p = ("CEntity", "urn:ttsoap") then some { name := "CEntity" }
    else if p = ("CDefect", "urn:ttsoap") then some { name := "CDefect" }
    else none

/-- A held context produced by a successful acquire, used to instantiate
theorems at concrete states. -/
def sampleHeld : EditCtx :=
  { locked := true, errored := false, success := false, saved := false,
    lock_failed := false, ignore_lock_error := false, lock_error := none,
    table := "Defect", recordid := some 1 }

/-- The state of `sampleHeld` after a successful save: released. -/
def sampleReleased : EditCtx :=
  { sampleHeld with locked := false, success := true, saved := true }

/-- C1: for a context in state HELD whose scope exits without an active
exception and whose commit RPC fails, exactly one discard RPC is
attempted, the errored flag is set, and the exception `__exit__` raises
is the original commit error, whatever the discard outcome. -/
theorem commit_failure_one_discard_original_error_reraised
    (c : EditCtx) (h : c.locked = true) (e : Nat) (cancelRpc : Option Nat) :
    (ctxExit c none (some e) cancelRpc).raised = some e ∧
    (ctxExit c none (some e) cancelRpc).cancelRpcs = 1 ∧
    (ctxExit c none (some e) cancelRpc).saveRpcs = 1 ∧
    (ctxExit c none (some e) cancelRpc).ctx.errored = true ∧
    (ctxExit c none (some e) cancelRpc).suppress = false := by
  cases cancelRpc <;> simp [ctxExit, ctxSave, ctxCancelSave, h]

/-- Witness for C1 at a concrete held context, with the discard itself
also failing. -/
theorem commit_failure_one_discard_original_error_reraised_witness :
    (ctxExit sampleHeld none (some 5) (some 7)).raised = some 5 ∧
    (ctxExit sampleHeld none (some 5) (some 7)).cancelRpcs = 1 ∧
    (ctxExit sampleHeld none (some 5) (some 7)).saveRpcs = 1 ∧
    (ctxExit sampleHeld none (some 5) (some 7)).ctx.errored = true ∧
    (ctxExit sampleHeld none (some 5) (some 7)).suppress = false :=
  commit_failure_one_discard_original_error_reraised sampleHeld (by decide) 5 (some 7)

/-- C2 counterexample: scope of a held context exits with an active
exception and the discard RPC fails — the context does not become
DISCARDED; its lock flag is still set. -/
theorem exception_exit_failed_discard_not_discarded :
    discarded (ctxExit sampleHeld (some 3) none (some 7)).ctx = false ∧
    still_held (ctxExit sampleHeld (some 3) none (some 7)).ctx = true := by decide

/-- C2 (amended): for a context in state HELD whose scope exits with an
active exception, exactly one discard RPC is attempted, a discard
failure is only logged and `__exit__` raises nothing and does not
suppress, the errored flag is set, and the original exception keeps
propagating; the context becomes DISCARDED when the discard RPC
succeeds, and remains marked held when it fails. -/
theorem exception_exit_one_discard_propagates
    (c : EditCtx) (h : c.locked = true) (hf : c.lock_failed = false)
    (x : Nat) (saveRpc cancelRpc : Option Nat) :
    (ctxExit c (some x) saveRpc cancelRpc).cancelRpcs = 1 ∧
    (ctxExit c (some x) saveRpc cancelRpc).saveRpcs = 0 ∧
    (ctxExit c (some x) saveRpc cancelRpc).raised = none ∧
    (ctxExit c (some x) saveRpc cancelRpc).suppress = false ∧
    (ctxExit c (some x) saveRpc cancelRpc).ctx.errored = true ∧
    (cancelRpc = none → discarded (ctxExit c (some x) saveRpc cancelRpc).ctx = true) ∧
    (cancelRpc ≠ none → still_held (ctxExit c (some x) saveRpc cancelRpc).ctx = true) := by
  cases cancelRpc <;> simp [ctxExit, ctxCancelSave, discarded, still_held, h, hf]

/-- Witness for C2 at a concrete held context whose discard succeeds. -/
theorem exception_exit_one_discard_propagates_witness :
    (ctxExit sampleHeld (some 3) none none).cancelRpcs = 1 ∧
    (ctxExit sampleHeld (some 3) none none).saveRpcs = 0 ∧
    (ctxExit sampleHeld (some 3) none none).raised = none ∧
    (ctxExit sampleHeld (some 3) none none).suppress = false ∧
    (ctxExit sampleHeld (some 3) none none).ctx.errored = true ∧
    (none = (none : Option Nat) → discarded (ctxExit sampleHeld (some 3) none none).ctx = true) ∧
    ((none : Option Nat) ≠ none → still_held (ctxExit sampleHeld (some 3) none none).ctx = true) :=
  exception_exit_one_discard_propagates sampleHeld (by decide) (by decide) 3 none none

/-- C3: a lease-acquire call that fails with fault code "22" while
`ignoreEditLockError` is set produces a DENIED context: `lease_denied`
is true, `still_held` is false, the fresh empty entity's record id is
absent, the captured lock error is retained; and `__exit__` of that
context without an active exception changes nothing and issues no RPC. -/
theorem tolerated_lock_denied_context (name : String) (i : Nat) :
    ∃ c, ctxInit name true (.fault i (some "22")) = .ok c ∧
      lease_denied c = true ∧ still_held c = false ∧
      c.recordid = none ∧ c.lock_error = some i ∧
      ∀ s r, ctxExit c none s r =
        { ctx := c, suppress := false, raised := none, saveRpcs := 0, cancelRpcs := 0 } := by
  refine ⟨_, rfl, ?_⟩
  refine ⟨rfl, rfl, rfl, rfl, fun s r => ?_⟩
  simp [ctxExit, ctxInit]

/-- C6: for a DENIED context built with the tolerate flag, exiting with
the very captured lock-error instance is swallowed (`__exit__` returns
True, no RPC issued), while exiting with any other exception is not. -/
theorem denied_context_swallows_only_own_lock_error
    (name : String) (i j : Nat) (hne : j ≠ i) :
    ∃ c, ctxInit name true (.fault i (some "22")) = .ok c ∧
      (∀ s r, (ctxExit c (some i) s r).suppress = true ∧
              (ctxExit c (some i) s r).raised = none ∧
              (ctxExit c (some i) s r).saveRpcs = 0 ∧
              (ctxExit c (some i) s r).cancelRpcs = 0) ∧
      (∀ s r, (ctxExit c (some j) s r).suppress = false ∧
              (ctxExit c (some j) s r).raised = none) := by
  refine ⟨_, rfl, fun s r => ?_, fun s r => ?_⟩
  · simp [ctxExit, ctxInit]
  · simp [ctxExit, ctxInit, hne]

/-- Witness for C6 at concrete exception identities 0 (captured) and 1
(some other exception). -/
theorem denied_context_swallows_only_own_lock_error_witness :
    (1 : Nat) ≠ 0 ∧
    ∃ c, ctxInit "editDefect" true (.fault 0 (some "22")) = .ok c ∧
      (∀ s r, (ctxExit c (some 0) s r).suppress = true ∧
              (ctxExit c (some 0) s r).raised = none ∧
              (ctxExit c (some 0) s r).saveRpcs = 0 ∧
              (ctxExit c (some 0) s r).cancelRpcs = 0) ∧
      (∀ s r, (ctxExit c (some 1) s r).suppress = false ∧
              (ctxExit c (some 1) s r).raised = none) :=
  ⟨by decide, denied_context_swallows_only_own_lock_error "editDefect" 0 1 (by decide)⟩

/-- Contexts produced by `__init__` satisfy the flag invariant. -/
theorem Inv_ctxInit (name : String) (ig : Bool) (acq : Acquire) (c : EditCtx)
    (h : ctxInit name ig acq = .ok c) : Inv c := by
  cases acq with
  | ok rid =>
      simp only [ctxInit] at h
      cases h
      exact ⟨by simp, by simp⟩
  | fault i d =>
      simp only [ctxInit] at h
      split at h
      · cases h
        exact ⟨by simp, by simp⟩
      · cases h

/-- The save operation preserves the flag invariant. -/
theorem Inv_ctxSave (c : EditCtx) (hInv : Inv c) (r : Option Nat) :
    Inv (ctxSave c r).ctx := by
  obtain ⟨h1, h2⟩ := hInv
  unfold ctxSave
  cases hl : c.locked with
  | false => simpa using ⟨h1, h2⟩
  | true =>
      cases r with
      | some e => simpa using ⟨h1, h2⟩
      | none =>
          have hlf : c.lock_failed = false := by
            cases hf : c.lock_failed
            · rfl
            · exact absurd (h2 hf).1 (by simp [hl])
          simp [Inv, hlf]

/-- The cancelSave operation preserves the flag invariant. -/
theorem Inv_ctxCancelSave (c : EditCtx) (hInv : Inv c) (r : Option Nat) :
    Inv (ctxCancelSave c r).ctx := by
  obtain ⟨h1, h2⟩ := hInv
  unfold ctxCancelSave
  cases hl : c.locked with
  | false => simpa using ⟨h1, h2⟩
  | true =>
      cases r with
      | some e => simpa using ⟨h1, h2⟩
      | none =>
          have hlf : c.lock_failed = false := by
            cases hf : c.lock_failed
            · rfl
            · exact absurd (h2 hf).1 (by simp [hl])
          simp [Inv, hlf]

/-- The invariant only depends on the three lease flags, so setting
`errored` or `success` preserves it. -/
theorem Inv_set_errored (c : EditCtx) (hInv : Inv c) (b b' : Bool) :
    Inv { c with errored := b, success := b' } := by
  obtain ⟨h1, h2⟩ := hInv
  exact ⟨h1, h2⟩

/-- Scope exit preserves the flag invariant. -/
theorem Inv_ctxExit (c : EditCtx) (hInv : Inv c) (exc saveRpc cancelRpc : Option Nat) :
    Inv (ctxExit c exc saveRpc cancelRpc).ctx := by
  obtain ⟨h1, h2⟩ := hInv
  cases hl : c.locked with
  | false =>
      have hctx : (ctxExit c exc saveRpc cancelRpc).ctx =
          (if exc.isSome then { c with errored := true } else c) := by
        simp only [ctxExit, hl]
        cases exc <;> simp [hl] <;> split <;> rfl
      rw [hctx]
      cases exc <;> exact ⟨h1, h2⟩
  | true =>
      have hlf : c.lock_failed = false := by
        cases hf : c.lock_failed
        · rfl
        · exact absurd (h2 hf).1 (by simp [hl])
      have hsv : c.saved = false := by
        cases hs : c.saved
        · rfl
        · exact absurd (h1 hs).1 (by simp [hl])
      cases exc with
      | some x =>
          cases cancelRpc with
          | none => simp [ctxExit, ctxCancelSave, Inv, hl, hlf, hsv]
          | some e2 => simp [ctxExit, ctxCancelSave, Inv, hl, hlf, hsv]
      | none =>
          cases saveRpc with
          | none => simp [ctxExit, ctxSave, Inv, hl, hlf, hsv]
          | some e =>
              cases cancelRpc with
              | none => simp [ctxExit, ctxSave, ctxCancelSave, Inv, hl, hlf, hsv]
              | some e2 => simp [ctxExit, ctxSave, ctxCancelSave, Inv, hl, hlf, hsv]

/-- C4 counterexample: exiting a held context's scope without an active
exception, when both the commit RPC and the fallback discard RPC fail,
makes neither `committed` nor `discarded` true — the context stays
marked held. -/
theorem exit_double_failure_neither_committed_nor_discarded :
    committed (ctxExit sampleHeld none (some 5) (some 7)).ctx = false ∧
    discarded (ctxExit sampleHeld none (some 5) (some 7)).ctx = false ∧
    still_held (ctxExit sampleHeld none (some 5) (some 7)).ctx = true := by decide

/-- C4 (amended): for contexts satisfying the reachability invariant,
a terminated context has exactly one of committed/discarded/denied; a
context from a successful acquire has `still_held` true and
`lease_denied` false; and exiting a held scope without an exception
makes exactly one of committed/discarded true provided the commit RPC
or the fallback discard RPC succeeds. -/
theorem terminated_states_exclusive :
    (∀ c : EditCtx, Inv c → terminated c = true →
       (committed c = true ∧ discarded c = false ∧ lease_denied c = false) ∨
       (committed c = false ∧ discarded c = true ∧ lease_denied c = false) ∨
       (committed c = false ∧ discarded c = false ∧ lease_denied c = true)) ∧
    (∀ name ig rid c, ctxInit name ig (.ok rid) = .ok c →
       still_held c = true ∧ lease_denied c = false) ∧
    (∀ (c : EditCtx) (saveRpc cancelRpc : Option Nat),
       c.locked = true → c.lock_failed = false →
       saveRpc = none ∨ cancelRpc = none →
       (committed (ctxExit c none saveRpc cancelRpc).ctx = true ∧
        discarded (ctxExit c none saveRpc cancelRpc).ctx = false) ∨
       (committed (ctxExit c none saveRpc cancelRpc).ctx = false ∧
        discarded (ctxExit c none saveRpc cancelRpc).ctx = true)) := by
  refine ⟨fun c hInv ht => ?_, fun name ig rid c h => ?_, fun c saveRpc cancelRpc hl hf hor => ?_⟩
  · obtain ⟨h1, h2⟩ := hInv
    simp only [terminated, committed, discarded, lease_denied] at ht ⊢
    cases hs : c.saved with
    | true =>
        obtain ⟨hlo, hlf⟩ := h1 hs
        simp [hs, hlo, hlf]
    | false =>
        cases hlf : c.lock_failed with
        | true =>
            obtain ⟨hlo, _⟩ := h2 hlf
            simp [hs, hlo, hlf]
        | false =>
            simp only [hs, hlf] at ht ⊢
            cases hlo : c.locked with
            | true => simp [hlo] at ht
            | false => simp [hlo]
  · simp only [ctxInit] at h
    cases h
    exact ⟨rfl, rfl⟩
  · cases hor with
    | inl hsv =>
        subst hsv
        left
        simp [ctxExit, ctxSave, committed, discarded, hl, hf]
    | inr hcv =>
        subst hcv
        cases saveRpc with
        | none =>
            left
            simp [ctxExit, ctxSave, committed, discarded, hl, hf]
        | some e =>
            right
            simp [ctxExit, ctxSave, ctxCancelSave, committed, discarded, hl, hf]

/-- Witness for C4: the exclusivity at a committed concrete context, the
acquire conjunct at a concrete call, and the exit conjunct at a held
concrete context with a succeeding commit RPC. -/
theorem terminated_states_exclusive_witness :
    (Inv sampleReleased ∧ terminated sampleReleased = true ∧
      ((committed sampleReleased = true ∧ discarded sampleReleased = false ∧
        lease_denied sampleReleased = false) ∨
       (committed sampleReleased = false ∧ discarded sampleReleased = true ∧
        lease_denied sampleReleased = false) ∨
       (committed sampleReleased = false ∧ discarded sampleReleased = false ∧
        lease_denied sampleReleased = true))) ∧
    (ctxInit "editDefect" false (.ok (some 1)) = .ok sampleHeld ∧
      still_held sampleHeld = true ∧ lease_denied sampleHeld = false) ∧
    (sampleHeld.locked = true ∧ sampleHeld.lock_failed = false ∧
      ((committed (ctxExit sampleHeld none none none).ctx = true ∧
        discarded (ctxExit sampleHeld none none none).ctx = false) ∨
       (committed (ctxExit sampleHeld none none none).ctx = false ∧
        discarded (ctxExit sampleHeld none none none).ctx = true))) := by
  have hinit : ctxInit "editDefect" false (.ok (some 1)) = .ok sampleHeld := by
    have : (ctxInit "editDefect" false (.ok (some 1))).toOption = some sampleHeld := by decide
    cases h : ctxInit "editDefect" false (.ok (some 1)) <;> simp [h, Except.toOption] at this ⊢
    exact this
  refine ⟨⟨by decide, by decide, terminated_states_exclusive.1 sampleReleased (by decide) (by decide)⟩,
          ⟨hinit, terminated_states_exclusive.2.1 "editDefect" false (some 1) sampleHeld hinit⟩,
          ⟨by decide, by decide,
           terminated_states_exclusive.2.2 sampleHeld none none (by decide) (by decide) (Or.inl rfl)⟩⟩

/-- C5 counterexample: the dispatcher-resolved save operation, invoked
on a context entity whose context has already been released, is not a
no-op — it issues the remote RPC again. -/
theorem dispatcher_save_after_release_issues_rpc :
    still_held sampleReleased = false ∧
    (call_context_method "Defect" sampleReleased none).rpc = 1 := by decide

/-- C5 (amended): once a context is no longer locked, its own `save` and
`cancelSave` (the path taken by scope exit and by `ttp.save` /
`ttp.cancelSave`) are no-ops returning without error; discarding twice
through that path issues the remote RPC exactly once; but the
dispatcher-resolved saveXXX/cancelSaveXXX path issues the RPC
unconditionally even on a released context. -/
theorem released_context_release_idempotent
    (c : EditCtx) (h : c.locked = false) :
    (∀ r, ctxSave c r = { ctx := c, raised := none, rpc := 0 }) ∧
    (∀ r, ctxCancelSave c r = { ctx := c, raised := none, rpc := 0 }) ∧
    (∀ c2 : EditCtx, c2.locked = true → ∀ r2,
       (ctxCancelSave c2 none).rpc +
         (ctxCancelSave (ctxCancelSave c2 none).ctx r2).rpc = 1) ∧
    (∀ r, (call_context_method c.table c r).rpc = 1) := by
  refine ⟨fun r => by simp [ctxSave, h],
          fun r => by simp [ctxCancelSave, h],
          fun c2 h2 r2 => by simp [ctxCancelSave, h2],
          fun r => by cases r <;> simp [call_context_method]⟩

/-- Witness for C5 at the concrete released context. -/
theorem released_context_release_idempotent_witness :
    sampleReleased.locked = false ∧
    ((∀ r, ctxSave sampleReleased r =
        { ctx := sampleReleased, raised := none, rpc := 0 }) ∧
     (∀ r, ctxCancelSave sampleReleased r =
        { ctx := sampleReleased, raised := none, rpc := 0 }) ∧
     (∀ c2 : EditCtx, c2.locked = true → ∀ r2,
        (ctxCancelSave c2 none).rpc +
          (ctxCancelSave (ctxCancelSave c2 none).ctx r2).rpc = 1) ∧
     (∀ r, (call_context_method sampleReleased.table sampleReleased r).rpc = 1)) :=
  ⟨by decide, released_context_release_idempotent sampleReleased (by decide)⟩

/-- C8: invoking a save/cancelSave operation for table `tbl` on a
context entity whose context's table differs raises the wrong-type
`TTPAPIError`, issues no RPC, and leaves the context unchanged. -/
theorem wrong_table_raises_without_rpc (tbl : String) (c : EditCtx) (r : Option Nat)
    (h : c.table ≠ tbl) :
    call_context_method tbl c r =
      { ctx := c, raised := some .wrongTable, rpc := 0 } := by
  simp [call_context_method, h]

/-- Witness for C8: the commit operation for table "Project" against a
context whose table is "Defect". -/
theorem wrong_table_raises_without_rpc_witness :
    sampleHeld.table ≠ "Project" ∧
    call_context_method "Project" sampleHeld none =
      { ctx := sampleHeld, raised := some .wrongTable, rpc := 0 } :=
  ⟨by decide, wrong_table_raises_without_rpc "Project" sampleHeld none (by decide)⟩

/-- C7 counterexample: an array element whose concrete class (`CBug`) is
not in the schema is silently tagged with an absent type descriptor —
the encoder returns normally instead of raising a type-resolution
error. -/
theorem element_resolution_failure_is_silent :
    polymorphic_cast sampleSchema ("CEntity", "urn:ttsoap") [.obj "CBug" none] =
      .ok [.obj "CBug" none] := by
  simp [polymorphic_cast, sampleSchema]

/-- C7 (amended): when the array's declared element type resolves, each
object element whose class name equals the resolved name keeps the
declared descriptor and each one whose class differs is re-tagged with
the schema's resolution of its own class — which is silently absent
when that class is not in the schema — mapping literals are promoted to
typed objects carrying the declared descriptor, plain values are
wrapped likewise, list elements pass through; when the declared element
type itself does not resolve, the encoder raises (a `NameError`, via
the undefined name `qref`). -/
theorem polymorphic_cast_retags_each_element
    (schema : String × String → Option TypeRef) (aty : String × String)
    (ref : TypeRef) (h : schema aty = some ref) (value : List ArrElem) :
    (∃ L, polymorphic_cast schema aty value = .ok L ∧
      L.length = value.length ∧
      ∀ k : Nat,
        (∀ cls s, value[k]? = some (.obj cls s) →
           L[k]? = some (.obj cls
             (if ref.name == cls then some ref else schema (cls, aty.2)))) ∧
        (value[k]? = some .dict → L[k]? = some (.promoted ref.name (some ref))) ∧
        (value[k]? = some .prim → L[k]? = some (.prop ref.name (some ref))) ∧
        (value[k]? = some .lst → L[k]? = some .lst)) ∧
    (∀ schema2 : String × String → Option TypeRef, schema2 aty = none →
       polymorphic_cast schema2 aty value = .error .nameErrorQref) := by
  constructor
  · refine ⟨value.map (fun x =>
      match x with
      | .lst => .lst
      | .obj cls _ =>
          if ref.name == cls then .obj cls (some ref)
          else .obj cls (schema (cls, aty.2))
      | .dict => .promoted ref.name (some ref)
      | .prim => .prop ref.name (some ref)), ?_, by simp, ?_⟩
    · simp [polymorphic_cast, h]
    · intro k
      refine ⟨fun cls s hk => ?_, fun hk => ?_, fun hk => ?_, fun hk => ?_⟩
      · by_cases hc : ref.name = cls <;> simp [List.getElem?_map, hk, hc]
      · simp [List.getElem?_map, hk]
      · simp [List.getElem?_map, hk]
      · simp [List.getElem?_map, hk]
  · intro schema2 h2
    simp [polymorphic_cast, h2]

/-- Witness for C7: the sample schema, an array declared as `CEntity`
holding a `CDefect` object (re-tagged with its own type), a `CEntity`
object (keeps the declared type), a mapping literal and a `CBug` object
whose class is absent from the schema. -/
theorem polymorphic_cast_retags_each_element_witness :
    sampleSchema ("CEntity", "urn:ttsoap") = some { name := "CEntity" } ∧
    ((∃ L, polymorphic_cast sampleSchema ("CEntity", "urn:ttsoap")
        [.obj "CDefect" none, .obj "CEntity" none, .dict, .obj "CBug" none] = .ok L ∧
      L.length = [ArrElem.obj "CDefect" none, .obj "CEntity" none, .dict,
        .obj "CBug" none].length ∧
      ∀ k : Nat,
        (∀ cls s, [ArrElem.obj "CDefect" none, .obj "CEntity" none, .dict,
            .obj "CBug" none][k]? = some (.obj cls s) →
           L[k]? = some (.obj cls
             (if ({ name := "CEntity" } : TypeRef).name == cls
              then some { name := "CEntity" }
              else sampleSchema (cls, ("CEntity", "urn:ttsoap").2)))) ∧
        ([ArrElem.obj "CDefect" none, .obj "CEntity" none, .dict,
            .obj "CBug" none][k]? = some .dict →
           L[k]? = some (.promoted ({ name := "CEntity" } : TypeRef).name
             (some { name := "CEntity" }))) ∧
        ([ArrElem.obj "CDefect" none, .obj "CEntity" none, .dict,
            .obj "CBug" none][k]? = some .prim →
           L[k]? = some (.prop ({ name := "CEntity" } : TypeRef).name
             (some { name := "CEntity" }))) ∧
        ([ArrElem.obj "CDefect" none, .obj "CEntity" none, .dict,
            .obj "CBug" none][k]? = some .lst → L[k]? = some .lst)) ∧
     (∀ schema2 : String × String → Option TypeRef,
        schema2 ("CEntity", "urn:ttsoap") = none →
        polymorphic_cast schema2 ("CEntity", "urn:ttsoap")
          [.obj "CDefect" none, .obj "CEntity" none, .dict, .obj "CBug" none] =
          .error .nameErrorQref)) :=
  ⟨by simp [sampleSchema],
   polymorphic_cast_retags_each_element sampleSchema ("CEntity", "urn:ttsoap")
     { name := "CEntity" } (by simp [sampleSchema])
     [.obj "CDefect" none, .obj "CEntity" none, .dict, .obj "CBug" none]⟩

/-- C9: `DatabaseLogoff` is a no-op when no cookie is held; otherwise it
issues the remote logoff once and clears the cookie whatever happens;
the session-dropped server message is always treated as success; any
other failure raises `TTPLogonError` unless `ignore_exceptions` is set,
in which case it is only logged; a normal return raises nothing. -/
theorem logoff_policy
    (cookie : Option Nat) (h : truthyN cookie = true) (msg : String)
    (hm : msg ≠ sessionDroppedMsg) :
    (∀ cookie2 hasClient ig rpc, truthyN cookie2 = false →
       DatabaseLogoff cookie2 hasClient ig rpc =
         { cookie := cookie2, raised := none, rpc := 0 }) ∧
    (∀ ig rpc, (DatabaseLogoff cookie true ig rpc).rpc = 1 ∧
       (DatabaseLogoff cookie true ig rpc).cookie = none) ∧
    (∀ ig, (DatabaseLogoff cookie true ig (some sessionDroppedMsg)).raised = none) ∧
    ((DatabaseLogoff cookie true false (some msg)).raised = some msg ∧
     (DatabaseLogoff cookie true true (some msg)).raised = none) ∧
    ((DatabaseLogoff cookie true false none).raised = none) := by
  have hm2 : (msg == sessionDroppedMsg) = false := by
    simp [hm]
  refine ⟨fun cookie2 hasClient ig rpc h2 => by simp [DatabaseLogoff, h2],
          fun ig rpc => ?_, fun ig => by simp [DatabaseLogoff, h],
          ⟨by simp [DatabaseLogoff, h, hm2], by simp [DatabaseLogoff, h, hm2]⟩,
          by simp [DatabaseLogoff, h]⟩
  cases rpc with
  | none => simp [DatabaseLogoff, h]
  | some m =>
      by_cases hd : (m == sessionDroppedMsg) = true <;>
        cases ig <;> simp [DatabaseLogoff, h, hd]

/-- Witness for C9 at a concrete held cookie and a concrete other
failure message. -/
theorem logoff_policy_witness :
    truthyN (some 9) = true ∧ "boom" ≠ sessionDroppedMsg ∧
    ((∀ cookie2 hasClient ig rpc, truthyN cookie2 = false →
       DatabaseLogoff cookie2 hasClient ig rpc =
         { cookie := cookie2, raised := none, rpc := 0 }) ∧
     (∀ ig rpc, (DatabaseLogoff (some 9) true ig rpc).rpc = 1 ∧
        (DatabaseLogoff (some 9) true ig rpc).cookie = none) ∧
     (∀ ig, (DatabaseLogoff (some 9) true ig (some sessionDroppedMsg)).raised = none) ∧
     ((DatabaseLogoff (some 9) true false (some "boom")).raised = some "boom" ∧
      (DatabaseLogoff (some 9) true true (some "boom")).raised = none) ∧
     ((DatabaseLogoff (some 9) true false none).raised = none)) :=
  ⟨by decide, by decide, logoff_policy (some 9) (by decide) "boom" (by decide)⟩

/-- C10: whenever a password argument is supplied to `DatabaseLogon` or
`ProjectLogon`, the stored password afterwards is the supplied username
argument (so `none` when only a password was supplied, in which case the
call fails before any remote logon), and a remote logon that does get
performed receives that stored value as its password argument. -/
theorem password_stored_as_username :
    (∀ s db u p, truthyS p = true →
       (databaseLogonCreds s db u p).password = u ∧
       (projectLogonCreds s db u p).password = u) ∧
    (∀ cookie hasClient s db u p lo lg ck s2 args, truthyS p = true →
       DatabaseLogon cookie hasClient s db u p lo lg = .ok (ck, s2, args) →
       s2.password = u ∧ args.pw = u.getD "") ∧
    (∀ cookie hasClient s pdb u p lo lg ck s2 args, truthyS p = true →
       ProjectLogon cookie hasClient s pdb u p lo lg = .ok (ck, s2, args) →
       s2.password = u ∧ args.pw = u.getD "") ∧
    (∀ cookie hasClient s db p lo lg, truthyS p = true →
       ∃ m, DatabaseLogon cookie hasClient s db none p lo lg = .error m) := by
  have hdb : ∀ s db u p, truthyS p = true →
      (databaseLogonCreds s db u p).password = u := by
    intro s db u p hp
    simp [databaseLogonCreds, hp]
  have hpj : ∀ s pdb u p, truthyS p = true →
      (projectLogonCreds s pdb u p).password = u := by
    intro s pdb u p hp
    simp [projectLogonCreds, hp]
  refine ⟨fun s db u p hp => ⟨hdb s db u p hp, hpj s db u p hp⟩,
          fun cookie hasClient s db u p lo lg ck s2 args hp hok => ?_,
          fun cookie hasClient s pdb u p lo lg ck s2 args hp hok => ?_,
          fun cookie hasClient s db p lo lg hp => ?_⟩
  · simp only [DatabaseLogon] at hok
    split at hok
    · cases hok
    · split at hok
      · cases hok
      · split at hok
        · cases hok
        · simp only [Except.ok.injEq, Prod.mk.injEq] at hok
          obtain ⟨-, hs2, hargs⟩ := hok
          subst hs2
          subst hargs
          exact ⟨hdb s db u p hp, by simp [hdb s db u p hp]⟩
  · simp only [ProjectLogon] at hok
    split at hok
    · cases hok
    · split at hok
      · cases hok
      · split at hok
        · cases hok
        · simp only [Except.ok.injEq, Prod.mk.injEq] at hok
          obtain ⟨-, hs2, hargs⟩ := hok
          subst hs2
          subst hargs
          exact ⟨hpj s pdb u p hp, by simp [hpj s pdb u p hp]⟩
  · simp only [DatabaseLogon]
    split
    · exact ⟨_, rfl⟩
    · have hnone : (databaseLogonCreds s db none p).password = none :=
        hdb s db none p hp
      exact ⟨"Must supply a valid database_name, username, and password.",
        by simp [hnone, truthyS]⟩

/-- Witness for C10: a call supplying both username "alice" and password
"secret" stores "alice" as the password and logs on with it. -/
theorem password_stored_as_username_witness :
    truthyS (some "secret") = true ∧
    DatabaseLogon none true ⟨none, none, none⟩ (some "DB") (some "alice")
        (some "secret") none (.ok 7) =
      .ok (some 7, ⟨some "DB", some "alice", some "alice"⟩,
           { db := "DB", user := "alice", pw := "alice" }) ∧
    ((⟨some "DB", some "alice", some "alice"⟩ : TTPCreds).password = some "alice" ∧
     ({ db := "DB", user := "alice", pw := "alice" } : LogonArgs).pw =
       (some "alice").getD "") :=
  ⟨by decide, by rfl,
   password_stored_as_username.2.1 none true ⟨none, none, none⟩ (some "DB")
     (some "alice") (some "secret") none (.ok 7) (some 7)
     ⟨some "DB", some "alice", some "alice"⟩
     { db := "DB", user := "alice", pw := "alice" } (by decide) (by rfl)⟩

end TTPro
